import Mathlib

/-!
PixelAlchemy: shallow embedding and verification.

A shallow embedding, in Lean 4, of the request/response logic of the
PixelAlchemy web application:

* `POST` — the Generate Handler in `src/app/api/generate-image/route.ts`
  (parse body, validate the `text` prompt, call the image provider, store
  the bytes, answer with a JSON envelope);
* `GET` — the List Handler in the same file (list stored blobs, answer
  with a JSON envelope of image URLs);
* `generateImage` — the Client Bridge in `src/app/actions/generateImage.ts`
  (internal HTTP call to the Generate Handler, normalising every failure
  into an error envelope);
* `fetcheSavedImages` and `handleSubmit` — the two state-updating
  functions of the UI component in `src/app/components/imageGenerator.tsx`.

External effects (the outbound `fetch` to the provider, the blob-store
`put`/`list`, the internal HTTP hop of the bridge) are modelled by passing
the outcome of each call as an explicit argument, so every function here is
a total Lean function of its inputs.  Thrown JavaScript values are modelled
by `Thrown`; dynamically typed JSON values by `JsValue`.  Console logging,
the query-string construction of the provider URL, the random UUID filename
and the environment-variable secrets are effects no claim observes and are
not modelled.  The `details` field of the Generate Handler error envelope
carries a runtime stack trace (`error.stack`); stack traces have no shallow
embedding and no claim refers to that field, so it is omitted from the
modelled body.
-/

set_option autoImplicit false

namespace PixelAlchemy

/-- A thrown JavaScript value, as the `catch` clauses discriminate it:
either an `Error` instance carrying a `message` string, or any other
thrown value. -/
inductive Thrown where
  | err (message : String)
  | nonError
  deriving DecidableEq, Repr

/-- Embedding of the idiom `e instanceof Error ? e.message : d`. -/
def Thrown.msgIfErr (d : String) : Thrown → String
  | .err m => m
  | .nonError => d

/-- Embedding of the idiom `(e as Error).message || d`: a missing message
(non-`Error` value) and an empty message both fall back to the default. -/
def Thrown.msgOrElse (d : String) : Thrown → String
  | .err m => if m.isEmpty then d else m
  | .nonError => d

/-- A dynamically typed JSON/JavaScript value, as produced by
`request.json()` / `response.json()`.  `undefined` is included because a
missing object field reads as `undefined`. -/
inductive JsValue where
  | undefined
  | null
  | boolean (b : Bool)
  | num (n : Int)
  | str (s : String)
  | arr (elems : List JsValue)
  | obj (fields : List (String × JsValue))

/-- JavaScript field access `v.k` on a plain value: a present object field
gives its value, anything else reads as `undefined`. -/
def JsValue.get (v : JsValue) (k : String) : JsValue :=
  match v with
  | .obj fields => (fields.lookup k).getD .undefined
  | _ => .undefined

/-- JavaScript truthiness: `undefined`, `null`, `false`, `0` and `""` are
falsy; every other value (including any array or object) is truthy. -/
def JsValue.truthy : JsValue → Bool
  | .undefined => false
  | .null => false
  | .boolean b => b
  | .num n => n != 0
  | .str s => !s.isEmpty
  | .arr _ => true
  | .obj _ => true

/-- Embedding of `typeof v === "string"`. -/
def JsValue.isStringType : JsValue → Bool
  | .str _ => true
  | _ => false

/-- The string held by a value when it is a string. -/
def JsValue.asStr : JsValue → Option String
  | .str s => some s
  | _ => none

/-- JavaScript `a || b`. -/
def jsOr (a b : JsValue) : JsValue :=
  if a.truthy then a else b

/-- Reading a JavaScript value as a `string[]` (the type `setSavedImages`
expects): an array gives its string elements, any non-array gives `[]`.
In the source only an array of URL strings or the literal `[]` ever
reaches this point. -/
def JsValue.toStrList : JsValue → List String
  | .arr xs => xs.filterMap JsValue.asStr
  | _ => []

/-- The JSON envelope of the Generate Handler and the Client Bridge, typed
as the component prop interface declares it:
`{success: boolean; imageUrl?: string; error?: string}`. -/
structure GenerationResult where
  success : Bool
  imageUrl : Option String
  error : Option String
  deriving DecidableEq, Repr

/-- The data-model invariant of §3 of the spec: `success=true` implies
`imageUrl` present and `error` absent; `success=false` implies `error`
present and `imageUrl` absent. -/
def resultInvariant (r : GenerationResult) : Prop :=
  (r.success = true → r.imageUrl.isSome = true ∧ r.error = none) ∧
  (r.success = false → r.error.isSome = true ∧ r.imageUrl = none)

/-- Embedding of `response.ok`: the HTTP status is in the inclusive range
200 to 299. -/
def statusOk (s : Nat) : Bool :=
  decide (200 ≤ s ∧ s ≤ 299)

/-! ## Generate Handler (`POST` in `src/app/api/generate-image/route.ts`) -/

/-- The incoming request of the Generate Handler, as `request.json()`
resolves it: either the parse rejects (malformed JSON body) with a thrown
value, or it yields a parsed JSON document. -/
inductive PostRequest where
  | parseFail (e : Thrown)
  | parsed (body : JsValue)

/-- The outcome of the outbound `fetch` to the image provider: either a
resolved response (status, diagnostic body text, image bytes) or a thrown
value (network failure, body-reading failure). -/
inductive ProviderOutcome where
  | resp (status : Nat) (bodyText : String) (bytes : List Nat)
  | thrown (e : Thrown)

/-- The outcome of the blob-store `put`: the public URL of the stored
object, or a thrown value. -/
inductive StoreOutcome where
  | ok (url : String)
  | thrown (e : Thrown)

/-- What one Generate Handler invocation produces: the HTTP status, the
JSON body, and how many provider and store calls it issued. -/
structure PostOutput where
  status : Nat
  body : GenerationResult
  providerCalls : Nat
  storeCalls : Nat
  deriving DecidableEq, Repr

/-- The validation error message thrown for a bad prompt. -/
def invalidPromptMsg : String :=
  "Invalid prompt, you need to provide a string."

/-- Destructuring `const { text } = body` throws a `TypeError` exactly when
`body` is `null` or `undefined` (`JSON.parse` can yield `null`). -/
def JsValue.destructureThrows : JsValue → Bool
  | .null => true
  | .undefined => true
  | _ => false

/-- Modelled from the runtime: the message of the `TypeError` raised when
destructuring `null`/`undefined`; its exact text is environment-specific
and no claim inspects it. -/
def destructureNullMsg : String :=
  "Cannot destructure property text of body as it is null or undefined."

/-- The `catch` clause of the Generate Handler: status 500 and a body with
`success` false and `error` set to the thrown message, or to the default
`Failed to generate image` for a non-Error value (the stack-trace
`details` field is not modelled). -/
def postCatch (e : Thrown) (providerCalls storeCalls : Nat) : PostOutput :=
  { status := 500
    body := { success := false, imageUrl := none
              error := some (e.msgIfErr ("Failed to generate image")) }
    providerCalls := providerCalls
    storeCalls := storeCalls }

/-- The Generate Handler `POST` of `route.ts`, as a function of the parsed
request and of the outcomes of its two outbound calls.  Faithful to the
source: parse the body, destructure `text`, reject with
`Error("Invalid prompt, you need to provide a string.")` when
the condition `!text || typeof text !== "string"` holds (note: no
trimming), fetch the provider, throw an error reading
`HTTP error status: <status>, message: <errorMsg>` when the response is
not ok, store the bytes, answer with success and the stored URL;
every throw lands in the single `catch` mapped by `postCatch`. -/
def POST (req : PostRequest) (provider : ProviderOutcome)
    (store : StoreOutcome) : PostOutput :=
  match req with
  | .parseFail e => postCatch e 0 0
  | .parsed body =>
    if body.destructureThrows then
      postCatch (.err destructureNullMsg) 0 0
    else
      let text := body.get ("text")
      if !text.truthy || !text.isStringType then
        postCatch (.err invalidPromptMsg) 0 0
      else
        match provider with
        | .thrown e => postCatch e 1 0
        | .resp status bodyText _bytes =>
          if !statusOk status then
            postCatch
              (.err ("HTTP error status: " ++ toString status ++
                ", message: " ++ bodyText)) 1 0
          else
            match store with
            | .thrown e => postCatch e 1 1
            | .ok url =>
              { status := 200
                body := { success := true, imageUrl := some url, error := none }
                providerCalls := 1
                storeCalls := 1 }

/-! ## List Handler (`GET` in `src/app/api/generate-image/route.ts`) -/

/-- The outcome of the blob-store `list()`: the list of stored blob URLs,
or a thrown value. -/
inductive ListOutcome where
  | ok (blobs : List String)
  | thrown (e : Thrown)

/-- What one List Handler invocation produces: the HTTP status and the
JSON body `{success, imageUrls?, error?}`. -/
structure ListOutput where
  status : Nat
  success : Bool
  imageUrls : Option (List String)
  error : Option String
  deriving DecidableEq, Repr

/-- The List Handler `GET` of `route.ts`: on a resolved `list()`, an empty
blob list answers `{success: true, imageUrls: []}` and a non-empty one
answers `{success: true, imageUrls}` with the mapped URLs; a thrown value
answers status 500 with `{success: false, error: (e as Error).message ||
"Fail fetching images"}`. -/
def GET (outcome : ListOutcome) : ListOutput :=
  match outcome with
  | .ok blobs =>
    if blobs.isEmpty then
      { status := 200, success := true, imageUrls := some [], error := none }
    else
      { status := 200, success := true, imageUrls := some blobs, error := none }
  | .thrown e =>
    { status := 500, success := false, imageUrls := none
      error := some (e.msgOrElse ("Fail fetching images")) }

/-- The JSON document the UI receives from the List Handler: the
serialisation of a `ListOutput` body.  Fields that are `undefined` are
dropped by JSON serialisation. -/
def ListOutput.bodyJson (o : ListOutput) : JsValue :=
  .obj ([("success", .boolean o.success)]
    ++ (match o.imageUrls with
        | some us => [("imageUrls", .arr (us.map .str))]
        | none => [])
    ++ (match o.error with
        | some e => [("error", .str e)]
        | none => []))

/-! ## Client Bridge (`generateImage` in `src/app/actions/generateImage.ts`) -/

/-- The outcome of the internal `fetch` of the bridge to the Generate
Handler: either a thrown value (the handler is unreachable), or a resolved
response with its status and the result of `response.json()` — which
itself either parses to an envelope or throws. -/
inductive BridgeOutcome where
  | fetchThrown (e : Thrown)
  | resp (status : Nat) (parse : Except Thrown GenerationResult)

/-- The error envelope built by the `catch` clause of the bridge. -/
def bridgeCatch (e : Thrown) : GenerationResult :=
  { success := false, imageUrl := none
    error := some (e.msgIfErr ("Failed attemp to generate image")) }

/-- The Client Bridge of `src/app/actions/generateImage.ts`: POSTs the
prompt `text` to the internal endpoint; when the response is not ok it
throws an error reading `HTTP error! status: <status>`, otherwise it parses
and returns the JSON body verbatim; the `catch` clause maps every thrown
value to `{success: false, error: e instanceof Error ? e.message :
"Failed attemp to generate image"}`.  The function is total in this
embedding, which is how the source never lets an exception escape.  The
prompt `text` only feeds the outbound request body and does not influence
which envelope the bridge builds. -/
def generateImage (_text : String) (outcome : BridgeOutcome) :
    GenerationResult :=
  match outcome with
  | .fetchThrown e => bridgeCatch e
  | .resp status parse =>
    if !statusOk status then
      bridgeCatch (.err ("HTTP error! status: " ++ toString status))
    else
      match parse with
      | .ok data => data
      | .error e => bridgeCatch e

/-! ## UI component (`src/app/components/imageGenerator.tsx`) -/

/-- The local state of the `ImageGenerator` component: one field per
`useState` hook. -/
structure UIState where
  inputText : String
  isLoading : Bool
  imageURL : Option String
  error : Option String
  savedImages : List String
  loadingImages : Bool
  deriving DecidableEq, Repr

/-- The component state right after mount, per the `useState` initial
values. -/
def initialUIState : UIState :=
  { inputText := "", isLoading := false, imageURL := none, error := none
    savedImages := [], loadingImages := true }

/-- The mount effect `fetcheSavedImages` of the component, as a function
of the component state and of the GET call outcome (`fetch` plus
`response.json()`, either of which can throw).  Faithful to the source:
when `data.success` is falsy it throws (caught below); otherwise it runs
`setSavedImages(data.imageUrl || [])` — reading the field `imageUrl`,
which the List Handler response does not carry (it carries `imageUrls`),
so the access yields `undefined` and `undefined || []` is `[]`.  The
`catch` sets the fixed message `"Unable to load images"`, and the
`finally` clears `loadingImages`. -/
def fetcheSavedImages (st : UIState) (outcome : Except Thrown JsValue) :
    UIState :=
  let st1 :=
    match outcome with
    | .error _ => { st with error := some ("Unable to load images") }
    | .ok data =>
      if !(data.get ("success")).truthy then
        { st with error := some ("Unable to load images") }
      else
        { st with savedImages := (jsOr (data.get ("imageUrl")) (.arr [])).toStrList }
  { st1 with loadingImages := false }

/-- Embedding of `result.error || d` followed by `new Error(...).message`,
as the failure branch of `handleSubmit` computes the message it surfaces:
a missing or
empty `error` string falls back to the default. -/
def optStrOrElse (d : String) : Option String → String
  | some s => if s.isEmpty then d else s
  | none => d

/-- The submit handler `handleSubmit` of the component, as a function of
the component state
and of the envelope the `generateImage` prop resolved to (the prop never
rejects).  Faithful to the source: set loading, clear the previous image
and error; when `result.success` is falsy throw
`Error(result.error || "Failed trying to generate the Image 😖")`; when
`result.imageUrl` is truthy set the displayed image, prepend the URL to
`savedImages` and clear the input text, otherwise throw
`Error("No image URL was received 😭")`; the `catch` stores the thrown
message in `error`, the `finally` clears `isLoading`. -/
def handleSubmit (st : UIState) (result : GenerationResult) : UIState :=
  let st1 := { st with isLoading := true, imageURL := none, error := none }
  let st2 :=
    if !result.success then
      { st1 with
        error := some (optStrOrElse ("Failed trying to generate the Image 😖")
          result.error) }
    else
      match result.imageUrl with
      | some u =>
        if u.isEmpty then
          { st1 with error := some ("No image URL was received 😭") }
        else
          { st1 with imageURL := some u, savedImages := u :: st1.savedImages
                     inputText := "" }
      | none => { st1 with error := some ("No image URL was received 😭") }
  { st2 with isLoading := false }

/-- The failure cases of the bridge call that the claims quantify over:
the internal fetch threw, the internal response carried a non-success
status, or the response body failed to parse. -/
def BridgeOutcome.isFailure : BridgeOutcome → Bool
  | .fetchThrown _ => true
  | .resp status parse =>
    !statusOk status ||
      (match parse with
       | .error _ => true
       | .ok _ => false)

/-- Whether a thrown value, when it is an Error, carries a non-empty
message — true of every runtime-raised error relevant here. -/
def Thrown.msgNonempty : Thrown → Bool
  | .err m => !m.isEmpty
  | .nonError => true

/-- Whether every thrown value a bridge outcome embeds carries a
non-empty message. -/
def BridgeOutcome.thrownMsgsNonempty : BridgeOutcome → Bool
  | .fetchThrown e => e.msgNonempty
  | .resp _ parse =>
    match parse with
    | .error e => e.msgNonempty
    | .ok _ => true

/-- The claim phrase `empty after trimming`: trimming removes exactly the
leading and trailing whitespace of a string, so a string trims to the
empty string precisely when every one of its characters is whitespace
(stated over the character list because `String.trim` is opaque to kernel
reduction). -/
def emptyAfterTrim (s : String) : Bool :=
  s.data.all Char.isWhitespace

/-! ## Helper lemmas -/

/-- Appending to a non-empty string never yields the empty string. -/
theorem append_left_ne_empty (a b : String) (h : a ≠ "") : a ++ b ≠ "" := by
  intro hab
  apply h
  apply String.ext
  have hd : a.data ++ b.data = [] := by
    have := congrArg String.data hab
    rwa [String.data_append] at this
  rcases List.append_eq_nil.mp hd with ⟨h1, _⟩
  simpa using h1

/-- The `catch` envelope of the bridge is an error envelope, and its
message is non-empty whenever the thrown value carried a non-empty
message. -/
theorem bridgeCatch_error_nonempty (e : Thrown) (h : e.msgNonempty = true) :
    (bridgeCatch e).success = false ∧
    ∃ m, (bridgeCatch e).error = some m ∧ m ≠ "" := by
  refine ⟨rfl, e.msgIfErr ("Failed attemp to generate image"), rfl, ?_⟩
  cases e with
  | err m =>
    simp only [Thrown.msgNonempty] at h
    simp only [Thrown.msgIfErr]
    intro hm
    subst hm
    exact absurd h (by decide)
  | nonError =>
    simp only [Thrown.msgIfErr]
    decide

/-- The message the bridge builds for a non-success internal status is
never empty. -/
theorem httpErrorMsg_ne_empty (status : Nat) :
    ("HTTP error! status: " ++ toString status) ≠ "" :=
  append_left_ne_empty _ _ (by decide)

/-- Every run of the Generate Handler either answers 200 with the success
envelope of the stored URL (after one provider call and one store call), or
answers through the single `catch` clause. -/
theorem POST_shape (req : PostRequest) (p : ProviderOutcome)
    (s : StoreOutcome) :
    (∃ url, POST req p s =
      { status := 200
        body := { success := true, imageUrl := some url, error := none }
        providerCalls := 1, storeCalls := 1 }) ∨
    (∃ e pc sc, POST req p s = postCatch e pc sc) := by
  rcases req with e | body
  · exact Or.inr ⟨e, 0, 0, rfl⟩
  · unfold POST
    dsimp only
    split
    · exact Or.inr ⟨_, 0, 0, rfl⟩
    · split
      · exact Or.inr ⟨_, 0, 0, rfl⟩
      · rcases p with ⟨status, bodyText, bytes⟩ | e
        · dsimp only
          split
          · exact Or.inr ⟨_, 1, 0, rfl⟩
          · rcases s with url | e
            · exact Or.inl ⟨url, rfl⟩
            · exact Or.inr ⟨e, 1, 1, rfl⟩
        · exact Or.inr ⟨e, 1, 0, rfl⟩

/-- The body of every Generate Handler answer satisfies the
`GenerationResult` invariant of the data model. -/
theorem POST_body_invariant (req : PostRequest) (p : ProviderOutcome)
    (s : StoreOutcome) : resultInvariant (POST req p s).body := by
  rcases POST_shape req p s with ⟨url, h⟩ | ⟨e, pc, sc, h⟩ <;>
    rw [h] <;> simp [resultInvariant, postCatch]

/-! ## Claim theorems -/

/-- Claim C1, counterexample: the claim also covers prompts that are
non-empty strings of whitespace (empty after trimming), but the source
validation tests `!text || typeof text !== "string"` without trimming, so
the prompt consisting of two spaces — empty after trimming — passes
validation and the handler does issue the outbound provider call (and even
succeeds end to end). -/
theorem C1_whitespace_prompt_not_rejected :
    emptyAfterTrim ("  ") = true ∧
    (POST (.parsed (.obj [("text", .str ("  "))]))
      (.resp 200 ("") [1]) (.ok ("https://store.example/abc.jpg"))).providerCalls = 1 ∧
    (POST (.parsed (.obj [("text", .str ("  "))]))
      (.resp 200 ("") [1]) (.ok ("https://store.example/abc.jpg"))).body.success = true := by
  refine ⟨by decide, rfl, rfl⟩

/-- Claim C1 (amended): for every parsed request body that is not `null`
(destructuring `text` from `null` throws its own `TypeError` instead),
whenever the `text` field is missing, not a string, or exactly the empty
string — but not merely empty after trimming — the Generate Handler
answers the validation error envelope and issues no call to the provider
or the store. -/
theorem C1_validation_short_circuits (body : JsValue) (p : ProviderOutcome)
    (s : StoreOutcome) (hb : body.destructureThrows = false)
    (h : (body.get ("text")).isStringType = false ∨ body.get ("text") = .str ("")) :
    (POST (.parsed body) p s).body.success = false ∧
    (POST (.parsed body) p s).body.error = some invalidPromptMsg ∧
    (POST (.parsed body) p s).providerCalls = 0 ∧
    (POST (.parsed body) p s).storeCalls = 0 := by
  have hv : (!(body.get ("text")).truthy || !(body.get ("text")).isStringType) = true := by
    rcases h with h | h
    · simp [h]
    · simp [h, JsValue.truthy, String.isEmpty]
  unfold POST
  simp [hb, hv, postCatch, Thrown.msgIfErr]

/-- Claim C1, witness: a request body with no `text` field is rejected
with the validation envelope, the provider and the store untouched. -/
theorem C1_validation_short_circuits_witness :
    (POST (.parsed (.obj [])) (.resp 200 ("") []) (.ok ("u"))).body.success = false ∧
    (POST (.parsed (.obj [])) (.resp 200 ("") []) (.ok ("u"))).body.error = some invalidPromptMsg ∧
    (POST (.parsed (.obj [])) (.resp 200 ("") []) (.ok ("u"))).providerCalls = 0 ∧
    (POST (.parsed (.obj [])) (.resp 200 ("") []) (.ok ("u"))).storeCalls = 0 :=
  C1_validation_short_circuits (.obj []) (.resp 200 ("") []) (.ok ("u"))
    rfl (Or.inl rfl)

/-- Claim C3, counterexample: a validation failure (here: `text` missing)
does not map to HTTP status 400 — the validation throw lands in the same
generic `catch` as every other failure and answers status 500. -/
theorem C3_validation_maps_to_500 :
    (POST (.parsed (.obj [])) (.resp 200 ("") []) (.ok ("u"))).status = 500 ∧
    (POST (.parsed (.obj [])) (.resp 200 ("") []) (.ok ("u"))).status ≠ 400 ∧
    (POST (.parsed (.obj [])) (.resp 200 ("") []) (.ok ("u"))).body.error =
      some invalidPromptMsg := by
  refine ⟨rfl, by decide, rfl⟩

/-- Claim C3 (amended): in this revision of the Generate Handler every
failure — validation failures included — is caught at the handler boundary
and mapped to an envelope with `success` false and an `error` message,
with HTTP status 500; there is no 400 branch. -/
theorem C3_failures_map_to_500 (req : PostRequest) (p : ProviderOutcome)
    (s : StoreOutcome) (h : (POST req p s).body.success = false) :
    (POST req p s).status = 500 ∧
    ∃ m, (POST req p s).body.error = some m := by
  rcases POST_shape req p s with ⟨url, hs⟩ | ⟨e, pc, sc, hs⟩
  · rw [hs] at h
    simp at h
  · rw [hs]
    exact ⟨rfl, _, rfl⟩

/-- Claim C3, witness: the malformed-prompt request of the counterexample
instantiates the amended theorem. -/
theorem C3_failures_map_to_500_witness :
    (POST (.parsed (.obj [])) (.resp 200 ("") []) (.ok ("u"))).status = 500 ∧
    ∃ m, (POST (.parsed (.obj [])) (.resp 200 ("") []) (.ok ("u"))).body.error = some m :=
  C3_failures_map_to_500 (.parsed (.obj [])) (.resp 200 ("") []) (.ok ("u")) rfl

/-- Claim C4, counterexample: on the body with `text` the empty string the
handler does reject with `success` false and no provider call, but the
error message is the validation message of this revision,
`Invalid prompt, you need to provide a string.`, not the message
`No prompt was provided` the claim states. -/
theorem C4_error_message_differs :
    (POST (.parsed (.obj [("text", .str (""))]))
      (.resp 200 ("") []) (.ok ("u"))).body.error = some invalidPromptMsg ∧
    invalidPromptMsg ≠ "No prompt was provided" := by
  refine ⟨rfl, by decide⟩

/-- Claim C4 (amended): for the input body with `text` the empty string,
and whatever the provider and the store would do, the Generate Handler
answers the envelope with `success` false and error message
`Invalid prompt, you need to provide a string.`, and makes no call to the
provider. -/
theorem C4_empty_prompt_rejected (p : ProviderOutcome) (s : StoreOutcome) :
    (POST (.parsed (.obj [("text", .str (""))])) p s).body.success = false ∧
    (POST (.parsed (.obj [("text", .str (""))])) p s).body.error =
      some invalidPromptMsg ∧
    (POST (.parsed (.obj [("text", .str (""))])) p s).providerCalls = 0 :=
  ⟨rfl, rfl, rfl⟩

/-- Claim C10: when the incoming request body is not parseable as JSON,
the `request.json()` rejection is caught by the handler `catch` clause and
mapped to an envelope with `success` false and an error message, with HTTP
status 500, and neither the provider nor the store is called. -/
theorem C10_malformed_body_caught (e : Thrown) (p : ProviderOutcome)
    (s : StoreOutcome) :
    (POST (.parseFail e) p s).status = 500 ∧
    (POST (.parseFail e) p s).body.success = false ∧
    (POST (.parseFail e) p s).body.error =
      some (e.msgIfErr ("Failed to generate image")) ∧
    (POST (.parseFail e) p s).providerCalls = 0 ∧
    (POST (.parseFail e) p s).storeCalls = 0 :=
  ⟨rfl, rfl, rfl, rfl, rfl⟩

/-- Claim C2: every envelope the Generate Handler answers satisfies the
`GenerationResult` invariant, and so does every envelope the Client Bridge
returns — given that whatever parsed body the bridge receives on an
ok-status internal response is one the Generate Handler produced (the
bridge returns that body verbatim; all its other branches build error
envelopes of their own). -/
theorem C2_envelope_invariant (req : PostRequest) (p : ProviderOutcome)
    (s : StoreOutcome) (text : String) (outcome : BridgeOutcome)
    (horigin : ∀ status data, outcome = .resp status (.ok data) →
      ∃ req2 p2 s2, data = (POST req2 p2 s2).body) :
    resultInvariant (POST req p s).body ∧
    resultInvariant (generateImage text outcome) := by
  refine ⟨POST_body_invariant req p s, ?_⟩
  rcases outcome with e | ⟨status, parse⟩
  · simp [generateImage, bridgeCatch, resultInvariant]
  · unfold generateImage
    dsimp only
    split
    · simp [bridgeCatch, resultInvariant]
    · rcases parse with e | data
      · simp [bridgeCatch, resultInvariant]
      · obtain ⟨req2, p2, s2, hd⟩ := horigin status data rfl
        rw [hd]
        exact POST_body_invariant req2 p2 s2

/-- Claim C2, witness: the invariant at a full happy-path run — the bridge
relays the 200 envelope the handler produced for the prompt `a red fox`. -/
theorem C2_envelope_invariant_witness :
    resultInvariant (POST (.parsed (.obj [("text", .str ("a red fox"))]))
      (.resp 200 ("") [7]) (.ok ("https://store.example/abc.jpg"))).body ∧
    resultInvariant (generateImage ("a red fox") (.resp 200 (.ok
      { success := true, imageUrl := some ("https://store.example/abc.jpg")
        error := none }))) := by
  apply C2_envelope_invariant
  intro status data h
  refine ⟨.parsed (.obj [("text", .str ("a red fox"))]),
    .resp 200 ("") [7], .ok ("https://store.example/abc.jpg"), ?_⟩
  cases h
  rfl

/-- Claim C5: the mount effect is meant to replace `savedImages` with the
URL list of a successful List Handler response, but it reads the field
`imageUrl`, which the list response does not carry (the List Handler
answers `imageUrls`), so even on a success envelope holding one URL the
gallery is set to the empty list — while the failure branch and the
loading flag behave as claimed. -/
theorem C5_gallery_never_populated :
    (GET (.ok ["https://store.example/abc.jpg"])).success = true ∧
    (GET (.ok ["https://store.example/abc.jpg"])).imageUrls =
      some ["https://store.example/abc.jpg"] ∧
    (fetcheSavedImages initialUIState
      (.ok (GET (.ok ["https://store.example/abc.jpg"])).bodyJson)).savedImages = [] ∧
    (fetcheSavedImages initialUIState
      (.ok (GET (.ok ["https://store.example/abc.jpg"])).bodyJson)).savedImages ≠
      ["https://store.example/abc.jpg"] ∧
    (fetcheSavedImages initialUIState
      (.ok (GET (.ok ["https://store.example/abc.jpg"])).bodyJson)).loadingImages = false ∧
    (fetcheSavedImages initialUIState (.error (.err ("boom")))).error =
      some ("Unable to load images") ∧
    (fetcheSavedImages initialUIState (.error (.err ("boom")))).savedImages = [] ∧
    (fetcheSavedImages initialUIState (.error (.err ("boom")))).loadingImages = false := by
  refine ⟨rfl, rfl, rfl, by decide, rfl, rfl, rfl, rfl⟩

/-- Claim C6: for every input string, whenever the internal call of the
Client Bridge fails — the fetch throws, the response status is not a
success, or the body fails to parse — the bridge returns an envelope with
`success` false and a non-empty error message (given that every thrown
Error carries a non-empty message, as runtime errors do).  The bridge is a
total function in this embedding: no exception propagates to its
caller. -/
theorem C6_bridge_maps_failures (text : String) (outcome : BridgeOutcome)
    (hwf : outcome.thrownMsgsNonempty = true)
    (hfail : outcome.isFailure = true) :
    (generateImage text outcome).success = false ∧
    ∃ m, (generateImage text outcome).error = some m ∧ m ≠ "" := by
  rcases outcome with e | ⟨status, parse⟩
  · exact bridgeCatch_error_nonempty e hwf
  · simp only [BridgeOutcome.isFailure] at hfail
    simp only [BridgeOutcome.thrownMsgsNonempty] at hwf
    cases hs : statusOk status with
    | false =>
      simp only [generateImage, hs, Bool.not_false, if_true]
      exact ⟨rfl, "HTTP error! status: " ++ toString status, rfl,
        httpErrorMsg_ne_empty status⟩
    | true =>
      rcases parse with e | data
      · simp only [generateImage, hs, Bool.not_true, Bool.false_eq_true,
          if_false]
        exact bridgeCatch_error_nonempty e hwf
      · rw [hs] at hfail
        simp at hfail

/-- Claim C6, witness: an internal 502 response with a (well-formed)
envelope body is mapped to a failure envelope with a non-empty message. -/
theorem C6_bridge_maps_failures_witness :
    (generateImage ("a red fox") (.resp 502 (.ok
      { success := false, imageUrl := none, error := some ("x") }))).success = false ∧
    ∃ m, (generateImage ("a red fox") (.resp 502 (.ok
      { success := false, imageUrl := none, error := some ("x") }))).error =
      some m ∧ m ≠ "" :=
  C6_bridge_maps_failures ("a red fox")
    (.resp 502 (.ok { success := false, imageUrl := none, error := some ("x") }))
    rfl rfl

/-- Claim C7: the List Handler maps every resolved store listing — the
empty one included — to a 200 success envelope carrying exactly the listed
URLs; it answers `success` false exactly when the list operation throws,
and then with HTTP status 500. -/
theorem C7_empty_list_is_success :
    (∀ blobs, GET (.ok blobs) =
      { status := 200, success := true, imageUrls := some blobs
        error := none }) ∧
    (∀ o, (GET o).success = false ↔ ∃ e, o = .thrown e) ∧
    (∀ e, (GET (.thrown e)).status = 500) := by
  refine ⟨?_, ?_, fun e => rfl⟩
  · intro blobs
    unfold GET
    dsimp only
    split
    · next h => rw [List.isEmpty_iff.mp h]
    · rfl
  · intro o
    rcases o with blobs | e
    · constructor
      · intro h
        exfalso
        unfold GET at h
        dsimp only at h
        split at h <;> simp at h
      · rintro ⟨e, he⟩
        cases he
    · exact ⟨fun _ => ⟨e, rfl⟩, fun _ => rfl⟩

/-- Claim C8: for every valid prompt (a non-empty string `text` field),
when the provider responds with a non-success HTTP status the Generate
Handler answers an envelope with `success` false and a non-empty error
message that contains the status code and the provider response body
text — the message is literally the status rendered between two fixed
fragments and followed by the body text. -/
theorem C8_provider_error_message (body : JsValue) (prompt : String)
    (status : Nat) (bodyText : String) (bytes : List Nat) (s : StoreOutcome)
    (hb : body.destructureThrows = false)
    (hp : (body.get ("text")).asStr = some prompt)
    (hne : prompt ≠ "")
    (hst : statusOk status = false) :
    (POST (.parsed body) (.resp status bodyText bytes) s).body.success = false ∧
    ∃ pre mid,
      (POST (.parsed body) (.resp status bodyText bytes) s).body.error =
        some (pre ++ toString status ++ mid ++ bodyText) ∧
      (pre ++ toString status ++ mid ++ bodyText) ≠ "" := by
  have htext : body.get ("text") = .str prompt := by
    cases hx : body.get ("text") <;> rw [hx] at hp <;>
      simp [JsValue.asStr] at hp
    rw [hp]
  have hie : prompt.isEmpty = false := by
    cases hie : prompt.isEmpty
    · rfl
    · exact absurd ((String.isEmpty_iff prompt).mp hie) hne
  unfold POST
  simp only [hb, htext, JsValue.truthy, JsValue.isStringType, hie,
    Bool.not_false, Bool.not_true, Bool.or_false, Bool.false_or,
    Bool.if_false_left, hst, if_true, if_false, Bool.if_true_left]
  refine ⟨rfl, "HTTP error status: ", ", message: ", rfl, ?_⟩
  exact append_left_ne_empty _ _ (append_left_ne_empty _ _
    (append_left_ne_empty _ _ (by decide)))

/-- Claim C8, witness: the prompt `a red fox` with a provider answering
502 and the body text `Bad Gateway`. -/
theorem C8_provider_error_message_witness :
    (POST (.parsed (.obj [("text", .str ("a red fox"))]))
      (.resp 502 ("Bad Gateway") []) (.ok ("u"))).body.success = false ∧
    ∃ pre mid,
      (POST (.parsed (.obj [("text", .str ("a red fox"))]))
        (.resp 502 ("Bad Gateway") []) (.ok ("u"))).body.error =
        some (pre ++ toString 502 ++ mid ++ ("Bad Gateway" : String)) ∧
      (pre ++ toString 502 ++ mid ++ ("Bad Gateway" : String)) ≠ "" :=
  C8_provider_error_message (.obj [("text", .str ("a red fox"))])
    ("a red fox") 502 ("Bad Gateway") [] (.ok ("u")) rfl rfl
    (by decide) (by decide)

/-- Claim C9: whenever the envelope the `generateImage` prop resolved to
has `success` false, `handleSubmit` surfaces its error message — or the
default message when the envelope carries none or an empty one — and
leaves `savedImages` untouched (and clears the loading flag). -/
theorem C9_submit_failure_keeps_gallery (st : UIState)
    (result : GenerationResult) (h : result.success = false) :
    (handleSubmit st result).savedImages = st.savedImages ∧
    (handleSubmit st result).error =
      some (optStrOrElse ("Failed trying to generate the Image 😖")
        result.error) ∧
    (handleSubmit st result).isLoading = false := by
  unfold handleSubmit
  simp [h]

/-- Claim C9, witness: a failure envelope with message `boom` against a
state holding one gallery URL. -/
theorem C9_submit_failure_keeps_gallery_witness :
    (handleSubmit { initialUIState with savedImages := ["a"] }
      { success := false, imageUrl := none, error := some ("boom") }).savedImages =
      ({ initialUIState with savedImages := ["a"] } : UIState).savedImages ∧
    (handleSubmit { initialUIState with savedImages := ["a"] }
      { success := false, imageUrl := none, error := some ("boom") }).error =
      some (optStrOrElse ("Failed trying to generate the Image 😖")
        (some ("boom"))) ∧
    (handleSubmit { initialUIState with savedImages := ["a"] }
      { success := false, imageUrl := none, error := some ("boom") }).isLoading =
      false :=
  C9_submit_failure_keeps_gallery
    { initialUIState with savedImages := ["a"] }
    { success := false, imageUrl := none, error := some ("boom") } rfl

end PixelAlchemy
